import Mathlib

/-!
Verification of the rosleet userscript (Rosalind editor/session state
machine) against its specification.  Each section embeds one part of the
TypeScript source as executable Lean definitions and proves or refutes
the spec's claims about it.
-/

namespace Rosleet

/-! ## String primitives

The TypeScript code uses `String.prototype.includes`, `startsWith`,
`trim`, `split` and `Array.prototype.join`.  We embed them as structural
recursions over the character list of a `String`, so that the kernel can
evaluate them on concrete inputs.
-/

/-- `chStarts pat s` : the char list `pat` is a prefix of the char list `s`
(the semantics of JavaScript `String.prototype.startsWith` on exploded
strings). -/
def chStarts : List Char → List Char → Bool
  | [], _ => true
  | _ :: _, [] => false
  | p :: ps, c :: cs => p == c && chStarts ps cs

/-- `chContains s pat` : `pat` occurs as a contiguous substring of `s`
(the semantics of JavaScript `String.prototype.includes`). -/
def chContains : List Char → List Char → Bool
  | [], pat => pat.isEmpty
  | c :: cs, pat => chStarts pat (c :: cs) || chContains cs pat

/-- JavaScript `s.includes(pat)`. -/
def strContains (s pat : String) : Bool :=
  chContains s.data pat.data

/-- JavaScript `s.startsWith(pat)`. -/
def strStarts (s pat : String) : Bool :=
  chStarts pat.data s.data

/-- White space for the purposes of JavaScript `String.prototype.trim`
(the inputs we care about only ever carry these four). -/
def isWs (c : Char) : Bool :=
  c == ' ' || c == '\t' || c == '\n' || c == '\r'

/-- JavaScript `s.trim()`. -/
def trimStr (s : String) : String :=
  ⟨((s.data.dropWhile isWs).reverse.dropWhile isWs).reverse⟩

/-- JavaScript `array.join("\n")`. -/
def joinNl : List String → String
  | [] => ""
  | [s] => s
  | s :: rest => s ++ "\n" ++ joinNl rest

/-- JavaScript `s.split(c)` for a one-character separator: never empty,
keeps empty fields. -/
def splitChAux (sep : Char) : List Char → List Char → List String
  | [], acc => [⟨acc.reverse⟩]
  | c :: cs, acc =>
    if c == sep then ⟨acc.reverse⟩ :: splitChAux sep cs []
    else splitChAux sep cs (c :: acc)

/-- JavaScript `s.split("\n")`. -/
def splitNl (s : String) : List String :=
  splitChAux '\n' s.data []

/-! ## Output model

`types.ts`: `OutputType = "error" | "success" | ""`; a runner yields
`{text, type}` items, `type: null` renders the same as `""` (a plain
line), so we model the type as a three-way enum with `plain` standing
for both `null` and `""`. -/

/-- The output type of one runner item (`OutputType` in `types.ts`, with
`plain` for `null`/`""`). -/
inductive OutputKind where
  | error
  | success
  | plain
  deriving DecidableEq, Repr

/-- One `{text, type}` item yielded by a runner (`Output` in
`executors/runner.ts`). -/
structure Output where
  text : String
  type : OutputKind
  deriving DecidableEq, Repr

/-- One rendered line of the transcript log.  `Editor.addOutput` gives the
DOM node class `rosalind-output-error` exactly when the item's type is
`error`; `getLastOutput` later reads back only the text and that class. -/
structure TLine where
  text : String
  isError : Bool
  deriving DecidableEq, Repr

/-- `Editor.addOutput` as a map from a runner item to the transcript line
it appends. -/
def toTLine (o : Output) : TLine :=
  ⟨o.text, o.type = OutputKind.error⟩

/-- The fixed start marker `">>> Running code..."`. -/
def startMarker : String := ">>> Running code..."

/-- The fixed end marker `">>> Done."`. -/
def doneMarker : String := ">>> Done."

/-! ## `Editor.getLastOutput` (src/editor.ts)

The backward loop `for (let i = lines.length - 1; i >= 0; i--)` returns
the first index from the end whose text contains the start marker, i.e.
the largest such index; `lastMarkerIdx` computes it by structural
recursion. -/

/-- Index of the last transcript line whose text contains
`">>> Running code..."` (the backward scan in `getLastOutput`). -/
def lastMarkerIdx : List TLine → Option Nat
  | [] => none
  | l :: rest =>
    match lastMarkerIdx rest with
    | some j => some (j + 1)
    | none => if strContains l.text startMarker then some 0 else none

/-- The forward collection loop of `getLastOutput`: walk the lines after
the marker, stop at a line containing `">>> Done."`, keep the text of
every line that is neither error-classed nor starts with `"Result:"`. -/
def collectOut : List TLine → List String
  | [] => []
  | l :: rest =>
    if strContains l.text doneMarker then []
    else if !l.isError && !strStarts l.text "Result:" then
      l.text :: collectOut rest
    else collectOut rest

/-- The list of texts `getLastOutput` collects from a transcript. -/
def getLastOutputLines (lines : List TLine) : List String :=
  match lastMarkerIdx lines with
  | none => []
  | some i => collectOut (lines.drop (i + 1))

/-- `Editor.getLastOutput`: `""` when no start marker is present,
otherwise the collected lines joined with `"\n"` and trimmed. -/
def getLastOutput (lines : List TLine) : String :=
  match lastMarkerIdx lines with
  | none => ""
  | some i => trimStr (joinNl (collectOut (lines.drop (i + 1))))

/-- A transcript without the start marker has no marker index. -/
theorem lastMarkerIdx_eq_none (ls : List TLine)
    (h : ∀ x ∈ ls, strContains x.text startMarker = false) :
    lastMarkerIdx ls = none := by
  induction ls with
  | nil => rfl
  | cons l rest ih =>
    unfold lastMarkerIdx
    rw [ih (fun x hx => h x (List.mem_cons_of_mem l hx))]
    simp [h l (List.mem_cons_self l rest)]

/-- The backward scan finds the most recent marker line: with a marker at
position `pre.length` and none after it, that position is returned. -/
theorem lastMarkerIdx_append (pre : List TLine) (l : TLine) (post : List TLine)
    (hl : strContains l.text startMarker = true)
    (hpost : ∀ x ∈ post, strContains x.text startMarker = false) :
    lastMarkerIdx (pre ++ l :: post) = some pre.length := by
  induction pre with
  | nil =>
    rw [List.nil_append]
    unfold lastMarkerIdx
    rw [lastMarkerIdx_eq_none post hpost]
    simp [hl]
  | cons p ps ih =>
    unfold lastMarkerIdx
    rw [List.cons_append]
    simp only []
    rw [ih]
    simp

/-- The forward collection loop, described as in the spec: take lines up
to the first one containing the end marker, drop error-classed lines and
`"Result:"`-prefixed lines, keep the texts. -/
theorem collectOut_eq (ls : List TLine) :
    collectOut ls =
      ((ls.takeWhile fun x => !strContains x.text doneMarker).filter
        fun x => !x.isError && !strStarts x.text "Result:").map TLine.text := by
  induction ls with
  | nil => rfl
  | cons l rest ih =>
    unfold collectOut
    by_cases hd : strContains l.text doneMarker
    · simp [List.takeWhile_cons, hd]
    · by_cases hk : (!l.isError && !strStarts l.text "Result:") = true
      · simp [List.takeWhile_cons, List.filter_cons, hd, hk, ih]
      · simp only [Bool.not_eq_true] at hk
        simp [List.takeWhile_cons, List.filter_cons, hd, hk, ih]

/-- Dropping the prefix up to and including the marker line leaves the
lines after it. -/
theorem drop_past_marker (pre : List TLine) (l : TLine) (post : List TLine) :
    (pre ++ l :: post).drop (pre.length + 1) = post := by
  have h1 : pre ++ l :: post = (pre ++ [l]) ++ post := by simp
  have h2 : pre.length + 1 = (pre ++ [l]).length := by simp
  rw [h1, h2, List.drop_left]

/-- C4: `getLastOutput` scans backward for the most recent
`">>> Running code..."` marker, then collects forward every line that is
neither error-classed nor prefixed with `"Result:"` until the
`">>> Done."` marker or the end of the log, and returns those lines
joined with newlines and trimmed; on the log
`[">>> Running code...", "line1", "line2", "Result: x", ">>> Done."]`
the result is `"line1\nline2"`. -/
theorem getLastOutput_spec :
    (∀ (pre : List TLine) (l : TLine) (post : List TLine),
      strContains l.text startMarker = true →
      (∀ x ∈ post, strContains x.text startMarker = false) →
      getLastOutput (pre ++ l :: post) =
        trimStr (joinNl
          (((post.takeWhile fun x => !strContains x.text doneMarker).filter
            fun x => !x.isError && !strStarts x.text "Result:").map TLine.text)))
    ∧ getLastOutput
        [⟨startMarker, false⟩, ⟨"line1", false⟩, ⟨"line2", false⟩,
         ⟨"Result: x", false⟩, ⟨doneMarker, false⟩] = "line1\nline2" := by
  constructor
  · intro pre l post hl hpost
    unfold getLastOutput
    rw [lastMarkerIdx_append pre l post hl hpost]
    dsimp only
    rw [drop_past_marker, collectOut_eq]
  · decide

/-- Witness: the general clause of `getLastOutput_spec` applied to the
spec's concrete round-trip log indeed produces `"line1\nline2"`. -/
theorem getLastOutput_spec_witness :
    getLastOutput
        ([] ++ (⟨startMarker, false⟩ : TLine) ::
          [⟨"line1", false⟩, ⟨"line2", false⟩,
           ⟨"Result: x", false⟩, ⟨doneMarker, false⟩]) = "line1\nline2" := by
  rw [getLastOutput_spec.1 [] ⟨startMarker, false⟩
    [⟨"line1", false⟩, ⟨"line2", false⟩, ⟨"Result: x", false⟩,
     ⟨doneMarker, false⟩] (by decide) (by decide)]
  decide

/-! ## `JavaScriptRunner.run` (src/executors/javascript.ts)

The user code is handed to the host JavaScript engine (an external
collaborator); we abstract one execution as its observable outcome: the
console output captured while it ran and either a returned value or a
thrown failure.  `logs`, `warnings` and `errors` are the buffers filled
by the replaced `console.log`/`warn`/`error`; `result` is the textual
display of the returned value when it is neither `undefined` nor `null`.
-/

/-- Outcome of running the user code inside `JavaScriptRunner.run`. -/
inductive JsExec where
  | ok (logs warnings errors : List String) (result : Option String)
  | err (msg : String)
  deriving DecidableEq, Repr

/-- A global logging function slot: either some original host function
(identified abstractly) or one of the three capture closures installed
by `JavaScriptRunner.run`. -/
inductive Handler where
  | original (id : Nat)
  | capture (which : Nat)
  deriving DecidableEq, Repr

/-- The mutable global `console` object: its `log`, `error` and `warn`
slots. -/
structure ConsoleFns where
  log : Handler
  error : Handler
  warn : Handler
  deriving DecidableEq, Repr

/-- `JavaScriptRunner.run`: the sequence of yielded items, and the state
of the global console after the sequence has terminated.  Mirrors the
source: early error item when not initialized; otherwise save the three
originals, install the capture closures, yield the start marker, execute,
on success yield the joined logs, warnings, errors, the `Result:` line
and the end marker, on a thrown failure yield a single error item; in
both cases the `finally` block reinstalls the saved originals. -/
def jsRun (initialized : Bool) (exec : JsExec) (c : ConsoleFns) :
    List Output × ConsoleFns :=
  if initialized = false then
    ([⟨"JavaScript runner not initialized. Please wait...", .error⟩], c)
  else
    let originalLog := c.log
    let originalError := c.error
    let originalWarn := c.warn
    let replaced : ConsoleFns := ⟨.capture 0, .capture 1, .capture 2⟩
    let items : List Output :=
      match exec with
      | .ok logs warnings errors result =>
        (if logs.isEmpty then [] else [⟨joinNl logs, .plain⟩])
        ++ (if warnings.isEmpty then [] else [⟨joinNl warnings, .plain⟩])
        ++ (if errors.isEmpty then [] else [⟨joinNl errors, .error⟩])
        ++ (match result with
            | some r => [⟨"Result: " ++ r, .plain⟩]
            | none => [])
        ++ [⟨doneMarker, .success⟩]
      | .err m => [⟨"Error: " ++ m, .error⟩]
    let restored : ConsoleFns :=
      { replaced with log := originalLog, error := originalError, warn := originalWarn }
    (⟨startMarker, .success⟩ :: items, restored)

/-- An element of `if c then [] else [a]` is `a`. -/
theorem mem_ite_singleton {α : Type} {c : Prop} [Decidable c] {a x : α}
    (h : x ∈ if c then [] else [a]) : x = a := by
  split at h <;> simp_all

/-- C9: `JavaScriptRunner.run` restores the global logging functions it
replaced (`console.log`, `console.error`, `console.warn`) to their
original values by the time the sequence terminates, whether the user
code succeeded or threw, and also when the runner was not initialized
and never replaced them. -/
theorem jsRun_console_restored (initialized : Bool) (exec : JsExec)
    (c : ConsoleFns) : (jsRun initialized exec c).2 = c := by
  cases initialized with
  | false => rfl
  | true => cases exec <;> (cases c; rfl)

/-! ## `PythonRunner.run` (src/executors/python.ts)

As for JavaScript, one execution of user code inside the Pyodide runtime
is abstracted as its observable outcome: the returned value (when
neither `undefined` nor `null`), and the contents of the `sys.stdout`
and `sys.stderr` capture buffers read back after the run. -/

/-- Outcome of running user code inside `PythonRunner.run`. -/
inductive PyExec where
  | ok (result : Option String) (stdout stderr : String)
  | err (msg : String)
  deriving DecidableEq, Repr

/-- `PythonRunner.run`: early error item when Pyodide is not loaded;
otherwise the code runs first (resetting the capture buffers), and only
then the start marker, the non-empty stderr as an error line, the
returned value and the captured stdout each as a `Result:`-prefixed
plain line, and the end marker are yielded; a raised failure occurs
before the first yield, so the sequence is then the single error item. -/
def pyRun (pyodideLoaded : Bool) (exec : PyExec) : List Output :=
  if pyodideLoaded = false then
    [⟨"Python not loaded yet. Please wait...", .error⟩]
  else
    match exec with
    | .ok result stdout stderr =>
      ⟨startMarker, .success⟩ ::
        ((if stderr = "" then [] else [⟨stderr, .error⟩])
        ++ (match result with
            | some r => [⟨"Result: " ++ r, .plain⟩]
            | none => [])
        ++ (if stdout = "" then [] else [⟨"Result: " ++ stdout, .plain⟩])
        ++ [⟨doneMarker, .success⟩])
    | .err m => [⟨"Error: " ++ m, .error⟩]

/-- C3 counterexample: the initialized Python backend, on a code string
whose execution raises, produces the single error-typed line alone —
the sequence does not begin with the success-typed start marker. -/
theorem pyRun_failure_no_start_marker :
    pyRun true (.err "boom") = [⟨"Error: " ++ "boom", .error⟩]
    ∧ (pyRun true (.err "boom")).head? ≠
        some ⟨startMarker, OutputKind.success⟩ := by
  decide

/-- C3 amended: for either initialized backend, a successful run yields
the success-typed `">>> Running code..."` marker, then zero or more
plain/error lines (captured stdout/stderr/console output and the
returned value), then the success-typed `">>> Done."` marker; on an
uncaught failure during execution the sequence terminates without the
end marker, ending in a single error-typed line describing the failure —
the JavaScript variant has already yielded the start marker before that
error line, while the Python variant fails before its first yield, so
its sequence is the single error line alone. -/
theorem run_sequence_shape :
    (∀ (logs warnings errors : List String) (result : Option String)
      (c : ConsoleFns),
      ∃ mid : List Output,
        (jsRun true (.ok logs warnings errors result) c).1 =
          ⟨startMarker, .success⟩ :: (mid ++ [⟨doneMarker, .success⟩])
        ∧ ∀ o ∈ mid, o.type = .plain ∨ o.type = .error)
    ∧ (∀ (result : Option String) (stdout stderr : String),
      ∃ mid : List Output,
        pyRun true (.ok result stdout stderr) =
          ⟨startMarker, .success⟩ :: (mid ++ [⟨doneMarker, .success⟩])
        ∧ ∀ o ∈ mid, o.type = .plain ∨ o.type = .error)
    ∧ (∀ (m : String) (c : ConsoleFns),
      (jsRun true (.err m) c).1 =
        [⟨startMarker, .success⟩, ⟨"Error: " ++ m, .error⟩]
      ∧ (⟨doneMarker, .success⟩ : Output) ∉ (jsRun true (.err m) c).1)
    ∧ (∀ m : String,
      pyRun true (.err m) = [⟨"Error: " ++ m, .error⟩]
      ∧ (⟨doneMarker, .success⟩ : Output) ∉ pyRun true (.err m)) := by
  refine ⟨?_, ?_, ?_, ?_⟩
  · intro logs warnings errors result c
    refine ⟨(if logs.isEmpty then [] else [⟨joinNl logs, .plain⟩])
      ++ (if warnings.isEmpty then [] else [⟨joinNl warnings, .plain⟩])
      ++ (if errors.isEmpty then [] else [⟨joinNl errors, .error⟩])
      ++ (match result with
          | some r => [⟨"Result: " ++ r, .plain⟩]
          | none => []), ?_, ?_⟩
    · simp [jsRun]
    · intro o ho
      simp only [List.mem_append] at ho
      rcases ho with ((h | h) | h) | h
      · rw [mem_ite_singleton h]
        exact Or.inl rfl
      · rw [mem_ite_singleton h]
        exact Or.inl rfl
      · rw [mem_ite_singleton h]
        exact Or.inr rfl
      · cases result with
        | none => simp at h
        | some r =>
          simp only [List.mem_singleton] at h
          rw [h]
          exact Or.inl rfl
  · intro result stdout stderr
    refine ⟨(if stderr = "" then [] else [⟨stderr, .error⟩])
      ++ (match result with
          | some r => [⟨"Result: " ++ r, .plain⟩]
          | none => [])
      ++ (if stdout = "" then [] else [⟨"Result: " ++ stdout, .plain⟩]),
      ?_, ?_⟩
    · simp [pyRun]
    · intro o ho
      simp only [List.mem_append] at ho
      rcases ho with (h | h) | h
      · rw [mem_ite_singleton h]
        exact Or.inr rfl
      · cases result with
        | none => simp at h
        | some r =>
          simp only [List.mem_singleton] at h
          rw [h]
          exact Or.inl rfl
      · rw [mem_ite_singleton h]
        exact Or.inl rfl
  · intro m c
    constructor
    · simp [jsRun]
    · simp only [jsRun, Bool.true_eq_false, if_false, List.mem_cons]
      rintro (h | h | h)
      · exact absurd (congrArg Output.text h) (by decide)
      · exact absurd (congrArg Output.type h) (by simp)
      · simp at h
  · intro m
    constructor
    · simp [pyRun]
    · simp only [pyRun, Bool.true_eq_false, if_false, List.mem_singleton]
      intro h
      exact absurd (congrArg Output.type h) (by simp)

/-- Witness: the Python failure clause of `run_sequence_shape` at a
concrete raised message — the sequence is the single error item. -/
theorem run_sequence_shape_witness :
    pyRun true (.err "oops") = [⟨"Error: " ++ "oops", .error⟩] :=
  (run_sequence_shape.2.2.2 "oops").1

/-- A string of the form `"Result: " ++ s` starts with `"Result:"`. -/
theorem strStarts_result (s : String) :
    strStarts ("Result: " ++ s) "Result:" = true := by
  have h : ("Result: " ++ s).data =
      'R' :: 'e' :: 's' :: 'u' :: 'l' :: 't' :: ':' :: ' ' :: s.data := by
    rw [String.data_append]
    rfl
  unfold strStarts
  rw [h]
  rfl

/-- No text collected by the extraction loop starts with `"Result:"`. -/
theorem collectOut_no_result (ls : List TLine) :
    ∀ t ∈ collectOut ls, strStarts t "Result:" = false := by
  induction ls with
  | nil => intro t ht; simp [collectOut] at ht
  | cons l rest ih =>
    intro t ht
    unfold collectOut at ht
    by_cases hd : strContains l.text doneMarker
    · simp [hd] at ht
    · simp only [hd, if_false, Bool.false_eq_true] at ht
      by_cases hk : (!l.isError && !strStarts l.text "Result:") = true
      · rw [if_pos hk] at ht
        rcases List.mem_cons.mp ht with h | h
        · subst h
          rcases Bool.and_eq_true_iff.mp hk with ⟨_, h2⟩
          simpa using h2
        · exact ih t h
      · rw [if_neg hk] at ht
        exact ih t ht

/-- No text in `getLastOutputLines` starts with `"Result:"`. -/
theorem getLastOutputLines_no_result (lines : List TLine) :
    ∀ t ∈ getLastOutputLines lines, strStarts t "Result:" = false := by
  intro t ht
  unfold getLastOutputLines at ht
  cases h : lastMarkerIdx lines with
  | none => rw [h] at ht; simp at ht
  | some i => rw [h] at ht; exact collectOut_no_result _ t ht

/-- C10: a Python run whose captured stdout is non-empty yields that
stdout as a single plain item whose text is `"Result: "` followed by
the stdout; such a text starts with `"Result:"`, and `getLastOutput`
never collects a line starting with `"Result:"`, so the stdout line is
excluded from the text `submit()` extracts, on every transcript. -/
theorem pyStdout_never_submitted :
    (∀ (result : Option String) (stdout stderr : String), stdout ≠ "" →
      (⟨"Result: " ++ stdout, .plain⟩ : Output) ∈
        pyRun true (.ok result stdout stderr)
      ∧ strStarts ("Result: " ++ stdout) "Result:" = true)
    ∧ (∀ lines : List TLine, ∀ t ∈ getLastOutputLines lines,
        strStarts t "Result:" = false)
    ∧ (∀ (lines : List TLine) (stdout : String),
        ("Result: " ++ stdout) ∉ getLastOutputLines lines) := by
  refine ⟨?_, getLastOutputLines_no_result, ?_⟩
  · intro result stdout stderr hne
    constructor
    · simp only [pyRun, Bool.true_eq_false, if_false]
      refine List.mem_cons_of_mem _ ?_
      simp only [List.mem_append]
      refine Or.inl (Or.inr ?_)
      rw [if_neg hne]
      exact List.mem_singleton.mpr rfl
    · exact strStarts_result stdout
  · intro lines stdout hmem
    have h1 := getLastOutputLines_no_result lines _ hmem
    rw [strStarts_result stdout] at h1
    exact Bool.true_eq_false.mp h1

/-- Witness: `pyStdout_never_submitted` at the concrete stdout `"5"`,
result `none`, empty stderr: the stdout item is in the yielded sequence
and carries the `"Result:"` prefix. -/
theorem pyStdout_never_submitted_witness :
    ((⟨"Result: " ++ "5", .plain⟩ : Output) ∈ pyRun true (.ok none "5" "")
      ∧ strStarts ("Result: " ++ "5") "Result:" = true)
    ∧ ("Result: " ++ "5") ∉ getLastOutputLines
        [⟨startMarker, false⟩, ⟨"Result: 5", false⟩, ⟨doneMarker, false⟩] :=
  ⟨pyStdout_never_submitted.1 none "5" "" (by decide),
   pyStdout_never_submitted.2.2 _ "5"⟩

/-! ## `getSkeleton` (src/executors/javascript.ts and python.ts)

Both variants inspect the first line of the trimmed dataset and choose
between a delimited-parsing skeleton (separator `"\\t"` for tabs,
`","` for commas, tabs winning) and a minimal skeleton. -/

/-- The JavaScript CSV/TSV skeleton template with the separator spliced
in (`javascript.ts`). -/
def jsCsvSkeleton (separator : String) : String :=
  "// Dataset is pre-loaded in 'dataset' variable\n// console.log(dataset.substring(0, 200))\n\n// Parse CSV/TSV\nconst lines = dataset.trim().split('\\n');\nconst data = lines.map(line => line.split('"
  ++ separator ++
  "'));\n\nconsole.log('Dataset shape:', data.length, 'rows');\nconsole.log('First few rows:', data.slice(0, 5));\n\n// Your analysis code here"

/-- The minimal JavaScript skeleton (`javascript.ts`). -/
def jsPlainSkeleton : String :=
  "// Dataset is pre-loaded in 'dataset' variable\n// console.log(dataset.substring(0, 200))\n\n// Your analysis code here"

/-- The Python pandas skeleton template with the separator spliced in
(`python.ts`). -/
def pyCsvSkeleton (separator : String) : String :=
  "import pandas as pd\nimport io\n      \n# Dataset is pre-loaded in 'dataset' variable. Uncomment to view: \n# print(dataset[:200])\n      \n# Load into pandas DataFrame\ndf = pd.read_csv(io.StringIO(dataset), sep='"
  ++ separator ++
  "')\n      \nprint(\"Dataset shape:\", df.shape)\nprint(df.head())\n      \n# Your analysis code here"

/-- The minimal Python skeleton (`python.ts`). -/
def pyPlainSkeleton : String :=
  "# Dataset is pre-loaded in 'dataset' variable. Uncomment to view: \n# print(dataset[:200])\n      \n# Your analysis code here"

/-- `JavaScriptRunner.getSkeleton`, with the dataset recorded at `init`
passed explicitly (the source reads it from `window.dataset`). -/
def jsGetSkeleton (dataset : String) : String :=
  let lines := splitNl (trimStr dataset)
  let firstLine := lines.headD ""
  let hasCommas := strContains firstLine ","
  let hasTabs := strContains firstLine "\t"
  if hasCommas || hasTabs then
    let separator := if hasTabs then "\\t" else ","
    jsCsvSkeleton separator
  else jsPlainSkeleton

/-- `PythonRunner.getSkeleton`, with the dataset bound into the Pyodide
globals at `init` passed explicitly. -/
def pyGetSkeleton (dataset : String) : String :=
  let lines := splitNl (trimStr dataset)
  let firstLine := lines.headD ""
  let hasCommas := strContains firstLine ","
  let hasTabs := strContains firstLine "\t"
  if hasCommas || hasTabs then
    let separator := if hasTabs then "\\t" else ","
    pyCsvSkeleton separator
  else pyPlainSkeleton

/-- Which of the three skeleton shapes is selected. -/
inductive SkeletonKind where
  | tab
  | comma
  | plain
  deriving DecidableEq, Repr

/-- The spec's decision rule, word for word: look at the first line of
the trimmed dataset; a tab character means tab-separated; else a comma
means comma-separated; else the minimal skeleton. -/
def skeletonKindOf (dataset : String) : SkeletonKind :=
  let firstLine := (splitNl (trimStr dataset)).headD ""
  if strContains firstLine "\t" then .tab
  else if strContains firstLine "," then .comma
  else .plain

/-- C6: both `getSkeleton` variants follow exactly the spec's decision
rule on every dataset — a tab in the first line of the trimmed dataset
selects the tab-separated skeleton, else a comma selects the
comma-separated skeleton, else the minimal skeleton — and on the spec's
three example datasets the rule selects comma, tab and plain
respectively. -/
theorem getSkeleton_decision_rule :
    (∀ dataset : String,
      jsGetSkeleton dataset =
        (match skeletonKindOf dataset with
          | .tab => jsCsvSkeleton "\\t"
          | .comma => jsCsvSkeleton ","
          | .plain => jsPlainSkeleton)
      ∧ pyGetSkeleton dataset =
        (match skeletonKindOf dataset with
          | .tab => pyCsvSkeleton "\\t"
          | .comma => pyCsvSkeleton ","
          | .plain => pyPlainSkeleton))
    ∧ skeletonKindOf "a,b,c\n1,2,3" = .comma
    ∧ skeletonKindOf "a\tb\n1\t2" = .tab
    ∧ skeletonKindOf "hello world" = .plain := by
  refine ⟨?_, by decide, by decide, by decide⟩
  intro dataset
  simp only [jsGetSkeleton, pyGetSkeleton, skeletonKindOf]
  generalize (splitNl (trimStr dataset)).headD "" = fl
  by_cases ht : strContains fl "\t" <;> by_cases hc : strContains fl "," <;>
    simp [ht, hc]

/-! ## Countdown resumption (`Editor.startTimer`, unnamed part_001, and
`setupStartButton`, unnamed part_003)

`startTimer` reads the persisted `START_TIMESTAMP`; when it is present
(and truthy) and less than five minutes old it derives the remaining
seconds from it, otherwise it resets to 300 and persists the current
time.  Timestamps are JavaScript millisecond numbers, embedded as `Int`;
`Int` division rounds down exactly like `Math.floor` on non-negative
values and the `0` timestamp is falsy in JavaScript, hence the `≠ 0`
guard. -/

/-- `const fiveMinutesInMs = 5 * 60 * 1000`. -/
def fiveMinutesInMs : Int := 300000

/-- The remaining-seconds computation of `Editor.startTimer`:
`Math.max(0, Math.floor((fiveMinutesInMs - elapsedMs) / 1000))` inside
the resume branch, `300` otherwise. -/
def startTimerRemaining (startTimestamp : Option Int) (now : Int) : Int :=
  match startTimestamp with
  | some ts =>
    if ts ≠ 0 ∧ now - ts < fiveMinutesInMs then
      max 0 ((fiveMinutesInMs - (now - ts)) / 1000)
    else 300
  | none => 300

/-- The persisted `START_TIMESTAMP` after `Editor.startTimer`: kept in
the resume branch, overwritten with `now` otherwise (the inner condition
mirrors the source's redundant re-check). -/
def startTimerPersist (startTimestamp : Option Int) (now : Int) : Option Int :=
  match startTimestamp with
  | some ts =>
    if ts ≠ 0 ∧ now - ts < fiveMinutesInMs then some ts
    else if ts = 0 ∨ fiveMinutesInMs ≤ now - ts then some now
    else some ts
  | none => some now

/-- The tail of `setupStartButton` (part_003): with a truthy persisted
timestamp less than five minutes old it auto-invokes `onStart` (resuming
the session); with a stale one it clears the timestamp.  Returns whether
the session is auto-resumed, and the persisted timestamp afterwards. -/
def setupStartResume (startTimestamp : Option Int) (now : Int) :
    Bool × Option Int :=
  match startTimestamp with
  | some ts =>
    if ts ≠ 0 then
      if now - ts < fiveMinutesInMs then (true, some ts) else (false, none)
    else (false, some ts)
  | none => (false, none)

/-- C1 counterexample: with persisted `T = 1000` and `now = T + 500`
(500 ms elapsed, well inside the window) the code computes 299 remaining
seconds, while the claimed formula `300 - floor((now - T)/1000)` gives
300 — the two disagree whenever the elapsed time is not a whole number
of seconds. -/
theorem startTimer_claim_formula_false :
    startTimerRemaining (some 1000) 1500 = 299
    ∧ (300 - ((1500 - 1000 : Int) / 1000)) = 300
    ∧ startTimerRemaining (some 1000) 1500 ≠
        300 - ((1500 - 1000 : Int) / 1000) := by
  decide

/-- In the resume branch the `Math.max` is redundant and the remaining
seconds equal `floor((300000 - elapsed) / 1000)`. -/
theorem startTimerRemaining_resume (T now : Int) (h0 : T ≠ 0)
    (hge : 0 ≤ now - T) (hlt : now - T < 300000) :
    startTimerRemaining (some T) now = (300000 - (now - T)) / 1000 := by
  unfold startTimerRemaining fiveMinutesInMs
  dsimp only
  rw [if_pos ⟨h0, hlt⟩]
  exact max_eq_right (Int.ediv_nonneg (by omega) (by norm_num))

/-- C1 amended: for a persisted `startTimestamp` `T > 0` and a
construction / timer start at `now` with `now - T < 300000` ms, the
session auto-resumes `Started`, the persisted timestamp is kept, and the
remaining seconds are `floor((300000 - (now - T)) / 1000)` — that is,
`300` minus the elapsed time rounded *up* to seconds — which is strictly
below the full 300 whenever any time has elapsed; in particular at
`now = T + 120s` the remaining time is 180 s. -/
theorem startTimer_resume (T now : Int) (h0 : 0 < T) (hle : T ≤ now)
    (hlt : now - T < 300000) :
    startTimerRemaining (some T) now = (300000 - (now - T)) / 1000
    ∧ startTimerPersist (some T) now = some T
    ∧ setupStartResume (some T) now = (true, some T)
    ∧ (T < now → startTimerRemaining (some T) now < 300)
    ∧ (now = T + 120000 → startTimerRemaining (some T) now = 180) := by
  have hr := startTimerRemaining_resume T now (by omega) (by omega) hlt
  refine ⟨hr, ?_, ?_, ?_, ?_⟩
  · unfold startTimerPersist fiveMinutesInMs
    dsimp only
    rw [if_pos (⟨by omega, hlt⟩ : T ≠ 0 ∧ now - T < 300000)]
  · unfold setupStartResume fiveMinutesInMs
    dsimp only
    rw [if_pos (by omega : T ≠ 0), if_pos hlt]
  · intro hlt2
    rw [hr]
    omega
  · intro hnow
    rw [hr, hnow]
    omega

/-- Witness: `startTimer_resume` at `T = 1000`, `now = 121000`
(120 s elapsed): the session resumes with 180 s remaining and the
timestamp is kept. -/
theorem startTimer_resume_witness :
    startTimerRemaining (some 1000) 121000 = (300000 - (121000 - 1000)) / 1000
    ∧ startTimerPersist (some 1000) 121000 = some 1000
    ∧ startTimerRemaining (some 1000) 121000 = 180 := by
  have h := startTimer_resume 1000 121000 (by decide) (by decide) (by decide)
  exact ⟨h.1, h.2.1, h.2.2.2.2 (by decide)⟩

/-! ## Countdown expiry (`Editor.startTimer` interval callback,
unnamed part_001)

The interval fires each second: it decrements the counter, and when it
reaches 0 stops the timer, emits an error-typed line, re-enables the
start button and clears the persisted timestamp. -/

/-- The editor state touched by the countdown interval callback. -/
structure TimerState where
  remainingSeconds : Int
  timerOn : Bool
  startTimestamp : Option Int
  startBtnDisabled : Bool
  editable : Bool
  transcript : List TLine
  deriving DecidableEq, Repr

/-- One firing of the 1-second interval installed by
`Editor.startTimer`: decrement; on reaching `<= 0` stop the timer,
append the error-typed time's-up line, re-enable the start button and
clear the persisted `START_TIMESTAMP`.  Nothing in the callback touches
the editing surface's editable flag. -/
def timerTick (s : TimerState) : TimerState :=
  let r := s.remainingSeconds - 1
  if r ≤ 0 then
    { s with
      remainingSeconds := r
      timerOn := false
      transcript := s.transcript ++ [⟨"⏰ Time's up! Try again.", true⟩]
      startBtnDisabled := false
      startTimestamp := none }
  else { s with remainingSeconds := r }

/-- A `Started` state one second from expiry, with the surface editable
(as `reset` leaves it for a started, unsolved problem). -/
def expiringState : TimerState :=
  ⟨1, true, some 1000, true, true, []⟩

/-- C2 counterexample: when the countdown reaches 0 the timer is
stopped, the persisted timestamp cleared, the error line emitted and the
start control re-enabled — but the editing surface is *not* made
non-editable: it stays editable exactly as before the tick. -/
theorem timerExpiry_editable_not_cleared :
    (timerTick expiringState).timerOn = false
    ∧ (timerTick expiringState).startTimestamp = none
    ∧ (timerTick expiringState).startBtnDisabled = false
    ∧ (timerTick expiringState).transcript =
        [⟨"⏰ Time's up! Try again.", true⟩]
    ∧ ¬(timerTick expiringState).editable = false := by
  decide

/-- C2 amended: on the countdown reaching 0 the interval callback stops
the timer, clears the persisted `startTimestamp`, emits an error-typed
notification and re-enables the start control; the editability of the
editing surface is left unchanged (it is not set to false). -/
theorem timerExpiry_transition (s : TimerState)
    (h : s.remainingSeconds ≤ 1) :
    timerTick s =
      { s with
        remainingSeconds := s.remainingSeconds - 1
        timerOn := false
        transcript := s.transcript ++ [⟨"⏰ Time's up! Try again.", true⟩]
        startBtnDisabled := false
        startTimestamp := none }
    ∧ (timerTick s).editable = s.editable := by
  have hr : s.remainingSeconds - 1 ≤ 0 := by omega
  constructor
  · unfold timerTick
    rw [if_pos hr]
  · unfold timerTick
    rw [if_pos hr]

/-- Witness: `timerExpiry_transition` at the concrete `expiringState`. -/
theorem timerExpiry_transition_witness :
    timerTick expiringState =
      { expiringState with
        remainingSeconds := 0
        timerOn := false
        transcript := [⟨"⏰ Time's up! Try again.", true⟩]
        startBtnDisabled := false
        startTimestamp := none }
    ∧ (timerTick expiringState).editable = expiringState.editable := by
  have h := timerExpiry_transition expiringState (by decide)
  exact ⟨by rw [h.1]; decide, h.2⟩

/-! ## `Editor.submit` (unnamed part_001)

`submit` checks the external cooldown probe, then extracts the last
output from the transcript; only past both guards and a successful form
lookup does it clear the persisted timestamp, stop the timer and hand
the payload to the host form. -/

/-- The editor state read and written by `Editor.submit`. -/
structure EditorSubmitState where
  transcript : List TLine
  startTimestamp : Option Int
  timerOn : Bool
  deriving DecidableEq, Repr

/-- `Editor.submit`, as a function of the cooldown probe (`canSubmit()`,
a DOM query) and of whether the host submission form and file input are
present.  Returns the new state and whether the host form was
submitted. -/
def submitStep (canSub formPresent : Bool) (s : EditorSubmitState) :
    EditorSubmitState × Bool :=
  if canSub = false then
    ({ s with transcript := s.transcript ++
        [⟨"Please wait before submitting again.", true⟩] }, false)
  else if getLastOutput s.transcript = "" then
    ({ s with transcript := s.transcript ++
        [⟨"No output to submit. Run your code first.", true⟩] }, false)
  else if formPresent = false then
    ({ s with transcript := s.transcript ++
        [⟨"Failed to submit: Submission form or file input not found", true⟩] },
     false)
  else
    ({ transcript := s.transcript ++
        [⟨"✓ Output submitted successfully!", false⟩],
       startTimestamp := none, timerOn := false }, true)

/-- A transcript without the start marker extracts to the empty
string. -/
theorem getLastOutput_no_marker (lines : List TLine)
    (h : ∀ x ∈ lines, strContains x.text startMarker = false) :
    getLastOutput lines = "" := by
  unfold getLastOutput
  rw [lastMarkerIdx_eq_none lines h]

/-- C5: on a transcript that is empty or contains no
`">>> Running code..."` marker, `submit()` only appends one error-typed
message: the host form is not submitted and the persisted
`startTimestamp` and the timer are unchanged — whatever the cooldown
probe says and whether or not the host form exists. -/
theorem submit_rejects_without_output (canSub formPresent : Bool)
    (s : EditorSubmitState)
    (h : s.transcript = [] ∨
      ∀ x ∈ s.transcript, strContains x.text startMarker = false) :
    (submitStep canSub formPresent s).2 = false
    ∧ (submitStep canSub formPresent s).1.startTimestamp = s.startTimestamp
    ∧ (submitStep canSub formPresent s).1.timerOn = s.timerOn
    ∧ ∃ msg : String,
        (submitStep canSub formPresent s).1.transcript =
          s.transcript ++ [⟨msg, true⟩] := by
  have hm : ∀ x ∈ s.transcript, strContains x.text startMarker = false := by
    rcases h with h | h
    · rw [h]; intro x hx; simp at hx
    · exact h
  have hempty := getLastOutput_no_marker s.transcript hm
  cases canSub with
  | false =>
    refine ⟨?_, ?_, ?_, "Please wait before submitting again.", ?_⟩ <;>
      simp [submitStep]
  | true =>
    refine ⟨?_, ?_, ?_, "No output to submit. Run your code first.", ?_⟩ <;>
      simp [submitStep, hempty]

/-- Witness: `submit_rejects_without_output` on the empty transcript
with the cooldown clear and the form present: nothing is submitted and
the state is unchanged but for the error line. -/
theorem submit_rejects_without_output_witness :
    (submitStep true true ⟨[], some 5, true⟩).2 = false
    ∧ (submitStep true true ⟨[], some 5, true⟩).1.startTimestamp = some 5
    ∧ (submitStep true true ⟨[], some 5, true⟩).1.timerOn = true
    ∧ ∃ msg : String,
        (submitStep true true ⟨[], some 5, true⟩).1.transcript =
          [] ++ [⟨msg, true⟩] :=
  submit_rejects_without_output true true ⟨[], some 5, true⟩ (Or.inl rfl)

/-! ## The solved terminal state (unnamed part_001)

`checkForSuccess` latches `isSuccessful` at load; `handleSuccess`
disables the controls and the language selector.  The per-language saved
code is only ever written by the CodeMirror update listener, which is
guarded by `!this.isSuccessful`; `run` never writes these fields; a
language switch saves only the language preference. -/

/-- The two execution languages (`Language` in types.ts). -/
inductive Lang where
  | python
  | javascript
  deriving DecidableEq, Repr

/-- The persisted `["CODE", language]` entries, one per language. -/
structure SavedCode where
  python : Option String
  javascript : Option String
  deriving DecidableEq, Repr

/-- Write one language's saved code. -/
def SavedCode.set (sc : SavedCode) (l : Lang) (code : String) : SavedCode :=
  match l with
  | .python => { sc with python := some code }
  | .javascript => { sc with javascript := some code }

/-- The session fields the solved-state claim is about. -/
structure SessionState where
  savedCode : SavedCode
  languagePref : Lang
  selectorDisabled : Bool
  isSuccessful : Bool
  deriving DecidableEq, Repr

/-- The user operations that can follow: an editor update (the
CodeMirror change notification), a run, a language switch. -/
inductive SessionOp where
  | edit (docChanged : Bool) (newCode : String)
  | runCode
  | switchLang (l : Lang)
  deriving DecidableEq, Repr

/-- Effect of each operation on these fields, from part_001:
the update listener `saveOnUpdate` persists the document under
`["CODE", language]` only when `update.docChanged && !this.isSuccessful`;
`Editor.run` only appends transcript output; the selector's change event
cannot fire while the selector is disabled, and when it fires the
language setter saves only the `LANGUAGE_PREFERENCE` key (the `reset` it
triggers reads the saved code but never writes it). -/
def applySessionOp (s : SessionState) : SessionOp → SessionState
  | .edit docChanged newCode =>
    if docChanged && !s.isSuccessful then
      { s with savedCode := s.savedCode.set s.languagePref newCode }
    else s
  | .runCode => s
  | .switchLang l =>
    if s.selectorDisabled then s else { s with languagePref := l }

/-- `Editor.handleSuccess`: disables the language selector (along with
the run/submit/clear buttons). -/
def handleSuccess (s : SessionState) : SessionState :=
  { s with selectorDisabled := true }

/-- Invariant: from a successful session with the selector disabled, no
sequence of operations changes the saved code, re-enables the selector
or clears the success flag. -/
theorem session_solved_invariant (ops : List SessionOp) :
    ∀ s : SessionState, s.isSuccessful = true → s.selectorDisabled = true →
      (ops.foldl applySessionOp s).savedCode = s.savedCode
      ∧ (ops.foldl applySessionOp s).selectorDisabled = true
      ∧ (ops.foldl applySessionOp s).isSuccessful = true := by
  induction ops with
  | nil => intro s h1 h2; exact ⟨rfl, h2, h1⟩
  | cons op rest ih =>
    intro s h1 h2
    have hstep : applySessionOp s op = s := by
      cases op with
      | edit docChanged newCode => simp [applySessionOp, h1]
      | runCode => rfl
      | switchLang l => simp [applySessionOp, h2]
    rw [List.foldl_cons, hstep]
    exact ih s h1 h2

/-- C7: once the session is solved (`isSuccessful` latched and
`handleSuccess` run), no subsequent sequence of edit / run /
language-switch operations mutates the persisted saved code of any
language, and the language selector stays disabled. -/
theorem solved_terminal_state (s : SessionState) (ops : List SessionOp)
    (h : s.isSuccessful = true) :
    (ops.foldl applySessionOp (handleSuccess s)).savedCode = s.savedCode
    ∧ (ops.foldl applySessionOp (handleSuccess s)).selectorDisabled = true := by
  have hinv := session_solved_invariant ops (handleSuccess s) h rfl
  exact ⟨hinv.1, hinv.2.1⟩

/-- Witness: `solved_terminal_state` on a concrete solved session and a
concrete operation sequence (an edit, a language switch, a run): the
saved code survives untouched and the selector stays disabled. -/
theorem solved_terminal_state_witness :
    (([SessionOp.edit true "overwrite", SessionOp.switchLang Lang.javascript,
        SessionOp.runCode].foldl applySessionOp
      (handleSuccess ⟨⟨some "keep-py", some "keep-js"⟩, Lang.python, false,
        true⟩)).savedCode = ⟨some "keep-py", some "keep-js"⟩
    ∧ ([SessionOp.edit true "overwrite", SessionOp.switchLang Lang.javascript,
        SessionOp.runCode].foldl applySessionOp
      (handleSuccess ⟨⟨some "keep-py", some "keep-js"⟩, Lang.python, false,
        true⟩)).selectorDisabled = true) :=
  solved_terminal_state
    ⟨⟨some "keep-py", some "keep-js"⟩, Lang.python, false, true⟩
    [SessionOp.edit true "overwrite", SessionOp.switchLang Lang.javascript,
      SessionOp.runCode] rfl

/-! ## Single in-flight run (`Editor.run` and the keydown hotkeys,
src/editor.ts)

`run` guards on a missing runner, a not-started problem and empty code,
then disables the run control for the duration of the drain.  Nothing in
`run` itself checks whether another run is already in flight; the only
protection is that a disabled button fires no click event.  The
Cmd+Enter keydown handler installed by `init` calls the bound `run`
directly.  `inFlight` is a ghost counter of executions begun and not yet
resolved. -/

/-- The editor state relevant to starting a run. -/
structure RunState where
  runBtnDisabled : Bool
  runnerPresent : Bool
  isStarted : Bool
  code : String
  inFlight : Nat
  transcript : List TLine
  deriving DecidableEq, Repr

/-- The synchronous prefix of `Editor.run`: the three reject guards,
then `runBtn.loading()` (the control is disabled) and the start of
draining the runner's sequence. -/
def runBegin (s : RunState) : RunState :=
  if s.runnerPresent = false then
    { s with transcript := s.transcript ++
        [⟨"Editor hasn't finished loading yet...", true⟩] }
  else if s.isStarted = false then
    { s with transcript := s.transcript ++
        [⟨"Please start before running.", true⟩] }
  else if trimStr s.code = "" then
    { s with transcript := s.transcript ++ [⟨"Nothing to run...", true⟩] }
  else { s with runBtnDisabled := true, inFlight := s.inFlight + 1 }

/-- A click on the run control: a disabled control fires no click
event, so the invocation is dropped; otherwise `run` begins. -/
def clickRun (s : RunState) : RunState :=
  if s.runBtnDisabled then s else runBegin s

/-- The Cmd+Enter keydown handler: calls the bound `run` directly,
without consulting the control's disabled state. -/
def hotkeyRun (s : RunState) : RunState :=
  runBegin s

/-- A session mid-run: one execution in flight, the run control
disabled, the session started with non-empty code. -/
def midRunState : RunState :=
  ⟨true, true, true, "print(1)", 1, []⟩

/-- C8 counterexample: while a first `run()` is still in flight (control
disabled, `inFlight = 1`), a second invocation of `run()` through the
Cmd+Enter hotkey is *not* ignored — it passes every guard and begins a
second execution (`inFlight = 2`). -/
theorem second_run_not_ignored :
    (hotkeyRun midRunState).inFlight = 2
    ∧ hotkeyRun midRunState ≠ midRunState := by
  decide

/-- C8 amended: a second *activation of the run control* while a run is
in flight is ignored, because `run` disables the control for the
duration of the call and a disabled control fires no click event; a
direct invocation of `run()` (the Cmd+Enter hotkey) is not guarded by
any in-flight check and will start a second, interleaving execution. -/
theorem run_control_guard (s : RunState) :
    (s.runBtnDisabled = true → clickRun s = s)
    ∧ (s.runnerPresent = true → s.isStarted = true → trimStr s.code ≠ "" →
        (runBegin s).runBtnDisabled = true
        ∧ (runBegin s).inFlight = s.inFlight + 1) := by
  constructor
  · intro h
    unfold clickRun
    rw [if_pos h]
  · intro h1 h2 h3
    unfold runBegin
    rw [if_neg (by simp [h1]), if_neg (by simp [h2]), if_neg h3]
    exact ⟨rfl, rfl⟩

/-- Witness: `run_control_guard` at `midRunState` (control already
disabled): the click is dropped, and a begun run leaves the control
disabled with the ghost counter incremented. -/
theorem run_control_guard_witness :
    clickRun midRunState = midRunState
    ∧ ((runBegin midRunState).runBtnDisabled = true
      ∧ (runBegin midRunState).inFlight = midRunState.inFlight + 1) :=
  ⟨(run_control_guard midRunState).1 rfl,
   (run_control_guard midRunState).2 rfl rfl (by decide)⟩

end Rosleet
